import Mathlib

/-!
Shallow embedding of `src/drive_file_bot.py` (rozhari/drive-file-bot):
a Telegram → Google Drive relay with two delivery paths.

The embedding models, faithfully to the source:
* the in-memory session store `upload_sessions` (line 56): a token → record
  map, the record holding exactly the two fields the code stores
  (`user_id`, `filename_hint`);
* the Flask handler `upload` (lines 77-154) as a pure transition: external
  effects (the Drive upload of the try-block, the Telegram notification)
  enter as oracle parameters, and the outcome records the response, the new
  store and the observable side effects (temp file saved/removed, whether a
  storage-backend call was made);
* the Telegram handler `get_file_link` (lines 160-235) likewise, with the
  result of the automatic fetch-and-upload attempt as an oracle;
* the resumable-upload polling loop `while response is None:
  status, response = request_drive.next_chunk()` (lines 110-111 and
  199-200) as a fuel-indexed iteration over the backend's reply stream;
* the interleaving of two concurrent `POST /upload` handlers over the shared
  (unlocked) store, reduced to the two store accesses a scheduler can
  observe: the membership check at line 80 and the pop at line 152.
-/

namespace DriveFileBot

/-- The value stored in `upload_sessions` for a token (line 221-224 mints it
with exactly these two fields): the owning Telegram user and an optional
filename hint. -/
structure UploadSession where
  user_id : Nat
  filename_hint : Option String
deriving DecidableEq, Repr

/-- The in-memory `upload_sessions` dict (line 56), token → session.
Keys are fresh uuid4 hex strings in the code, so an association list with
first-match lookup is an exact model. -/
abbrev SessionStore : Type := List (String × UploadSession)

/-- Dict membership / subscript: `upload_sessions[token]` after the
`token in upload_sessions` check (lines 80-83). -/
def storeLookup : SessionStore → String → Option UploadSession
  | [], _ => none
  | (k, v) :: rest, t => if k = t then some v else storeLookup rest t

/-- The consumption `upload_sessions.pop(token, None)` (line 152): removes
the entry for the token if present, never fails. -/
def storePop : SessionStore → String → SessionStore
  | [], _ => []
  | (k, v) :: rest, t => if k = t then storePop rest t else (k, v) :: storePop rest t

/-- The mint `upload_sessions[token] = \x7b...\x7d` (lines 221-224): dict
assignment, modelled as a front insertion (lookup sees the new binding). -/
def mintSession (store : SessionStore) (token : String) (userId : Nat)
    (hint : Option String) : SessionStore :=
  (token, ⟨userId, hint⟩) :: store

/-- The auto-relay size threshold `20 * 1024 * 1024` of line 184. -/
def THRESHOLD : Nat := 20 * 1024 * 1024

/-- HTTP method of a request to `/upload` (the route accepts GET and POST,
line 77). -/
inductive Method
  | get
  | post
deriving DecidableEq, Repr

/-- What the `upload` handler reads from the request: the `token` form/query
value (`request.values.get("token")`, absent → `none`) and whether a `file`
part is present in `request.files` (line 91). -/
structure UploadRequest where
  method : Method
  token : Option String
  hasFile : Bool
deriving DecidableEq, Repr

/-- Outcome of the Drive try-block (lines 102-123): the chunked create, the
permission grant and the metadata fetch either all succeed, yielding the
download link `webContentLink or webViewLink`, or some step raises. -/
inductive TransferResult
  | success (link : String)
  | failure (err : String)
deriving DecidableEq, Repr

/-- A Flask response: body text and status code. -/
structure HttpResponse where
  body : String
  status : Nat
deriving DecidableEq, Repr

/-- Everything observable about one `upload` handler run: the response, the
session store afterwards, whether a temp file was written (`file.save`,
line 99), whether it was removed again (`os.remove`, lines 127 and 139), and
whether any storage-backend call was made (the try-block was entered). -/
structure HandlerOutcome where
  response : HttpResponse
  storeAfter : SessionStore
  tmpSaved : Bool
  tmpRemoved : Bool
  driveCalled : Bool
deriving DecidableEq, Repr

/-- The rejection of lines 80-81, shared by missing, empty and unknown
tokens; the store and the filesystem are untouched. -/
def invalidOutcome (store : SessionStore) : HandlerOutcome :=
  { response := ⟨"Invalid or expired token. Start from the Telegram bot.", 400⟩,
    storeAfter := store, tmpSaved := false, tmpRemoved := false, driveCalled := false }

/-- The upload form of `UPLOAD_FORM_HTML` (lines 59-70) as
`render_template_string` instantiates it on GET (line 88). -/
def renderUploadForm (token : String) (userId : Nat) : String :=
  "\n<!doctype html>\n<title>Upload file to Drive</title>\n" ++
  "<h3>Upload file (will be saved to Drive)</h3>\n" ++
  "<p>User: " ++ toString userId ++ "</p>\n" ++
  "<form method=post enctype=multipart/form-data>\n" ++
  "  <input type=file name=file required>\n" ++
  "  <input type=hidden name=token value=\"" ++ token ++ "\">\n" ++
  "  <br><br>\n  <button type=submit>Upload</button>\n</form>\n"

/-- The `/upload` Flask handler (lines 77-154). `transfer` is the outcome of
the Drive try-block, `notifyOk` whether `tg_bot.send_message` succeeds.
Control flow, in source order: reject a missing/empty/unknown token
(lines 79-81); on GET render the form (line 88); on POST reject a missing
file part (lines 91-92); save the payload to a temp path (line 99); run the
Drive upload — on exception remove the temp file, notify, return 500 with
the store untouched (lines 124-135); on success remove the temp file
(lines 138-141), notify — if notification fails return 200 with the link and
the store untouched (lines 147-149); otherwise pop the token (line 152) and
return the success text (line 154). -/
def upload (store : SessionStore) (req : UploadRequest)
    (transfer : TransferResult) (notifyOk : Bool) : HandlerOutcome :=
  match req.token with
  | none => invalidOutcome store
  | some t =>
    if t = "" then invalidOutcome store
    else
      match storeLookup store t with
      | none => invalidOutcome store
      | some session =>
        match req.method with
        | Method.get =>
          { response := ⟨renderUploadForm t session.user_id, 200⟩,
            storeAfter := store, tmpSaved := false, tmpRemoved := false,
            driveCalled := false }
        | Method.post =>
          if req.hasFile then
            match transfer with
            | TransferResult.failure e =>
              { response := ⟨"Upload failed: " ++ e, 500⟩,
                storeAfter := store, tmpSaved := true, tmpRemoved := true,
                driveCalled := true }
            | TransferResult.success link =>
              if notifyOk then
                { response := ⟨"Upload successful! Link sent to your Telegram.", 200⟩,
                  storeAfter := storePop store t, tmpSaved := true,
                  tmpRemoved := true, driveCalled := true }
              else
                { response := ⟨"Upload OK but couldn't notify via Telegram. Link: " ++ link, 200⟩,
                  storeAfter := store, tmpSaved := true, tmpRemoved := true,
                  driveCalled := true }
          else
            { response := ⟨"No file provided.", 400⟩,
              storeAfter := store, tmpSaved := false, tmpRemoved := false,
              driveCalled := false }

/-- The kind of attachment carried by the Telegram message, in the order the
handler probes for it (lines 165-174); `noFile` when none of the five fields
is set, so `file_obj` stays `None`. -/
inductive FileKind
  | document
  | photo
  | video
  | audio
  | voice
  | noFile
deriving DecidableEq, Repr

/-- What `get_file_link` reads off the inbound message: the attachment kind,
`file_size` (line 181; `none` when the attribute is absent), the filename
hint `getattr(file_obj, "file_name", None) or None` (photos have none), and
`update.effective_user.id`. -/
structure Announcement where
  kind : FileKind
  fileSize : Option Nat
  fileName : Option String
  userId : Nat
deriving DecidableEq, Repr

/-- Outcome of the automatic-relay try-block (lines 186-212): the attempt may
raise before the temp file exists (`get_file`, line 188: `fetchFail`), raise
after `mkstemp` created it (download or Drive upload, lines 189-205:
`transferFail`), or complete with a download link. -/
inductive AutoResult
  | fetchFail (e : String)
  | transferFail (e : String)
  | success (link : String)
deriving DecidableEq, Repr

/-- Everything observable about one `get_file_link` run: the replies sent to
the chat user in order, the session store afterwards, the minted token if
any, whether the automatic relay was attempted (the `file_size ≤ 20MB`
branch was entered), whether a temp file was created (`mkstemp`, line 189)
and whether it was removed again (`os.remove`, line 208). -/
structure BotOutcome where
  replies : List String
  storeAfter : SessionStore
  minted : Option String
  autoAttempted : Bool
  tmpCreated : Bool
  tmpRemoved : Bool
deriving DecidableEq, Repr

/-- The browser upload URL of line 228: `base ++ "/upload?token=" ++ token`. -/
def uploadUrl (base token : String) : String :=
  base ++ "/upload?token=" ++ token

/-- The handoff reply of lines 230-235, carrying the upload URL. -/
def handoffReplyText (url : String) : String :=
  "❗ This file is large or couldn't be auto-downloaded.\n\n" ++
  "Please open the following link in your device browser and upload the file directly (this supports very large files):\n\n" ++
  url ++ "\n\n" ++
  "After upload completes, I'll send you the Drive download link here."

/-- The reply announcing the automatic path (line 185). -/
def smallFileReply : String :=
  "Small file detected — downloading and uploading to Drive..."

/-- The `get_file_link` Telegram handler (lines 160-235). `auto` is the
outcome of the automatic try-block, `freshToken` the uuid4 hex minted at
line 220, `base` the resolved base URL of line 227. Control flow, in source
order: with no recognised attachment, reply and stop (lines 176-178); if
`file_size` is known and at most the 20 MiB threshold, attempt the automatic
relay (lines 184-217) — on success reply with the link and stop (the `else:
return` of lines 216-217), on exception reply with the failure text and fall
through; in every remaining case mint a token bound to the sender
(lines 220-224) and reply with the upload URL (lines 227-235). The failure
branch (lines 213-215) contains no `os.remove`, so a temp file created
before the exception stays on disk. -/
def get_file_link (ann : Announcement) (store : SessionStore)
    (auto : AutoResult) (freshToken : String) (base : String) : BotOutcome :=
  if ann.kind = FileKind.noFile then
    { replies := ["Please send a valid file (document/photo/video/audio/voice)."],
      storeAfter := store, minted := none, autoAttempted := false,
      tmpCreated := false, tmpRemoved := false }
  else
    let small : Bool :=
      match ann.fileSize with
      | some s => decide (s ≤ THRESHOLD)
      | none => false
    let handoff : List String → Bool → BotOutcome := fun pre tmpCreated =>
      { replies := pre ++ [handoffReplyText (uploadUrl base freshToken)],
        storeAfter := mintSession store freshToken ann.userId ann.fileName,
        minted := some freshToken, autoAttempted := pre ≠ [],
        tmpCreated := tmpCreated, tmpRemoved := false }
    if small then
      match auto with
      | AutoResult.success link =>
        { replies := [smallFileReply, "✅ Uploaded to Drive!\n\nDownload link:\n" ++ link],
          storeAfter := store, minted := none, autoAttempted := true,
          tmpCreated := true, tmpRemoved := true }
      | AutoResult.fetchFail e =>
        handoff [smallFileReply,
          "❌ Failed to upload automatically: " ++ e ++ "\nYou can use manual upload link instead."] false
      | AutoResult.transferFail e =>
        handoff [smallFileReply,
          "❌ Failed to upload automatically: " ++ e ++ "\nYou can use manual upload link instead."] true
    else
      handoff [] false

/-- One call of `request_drive.next_chunk()` (lines 110-111 and 199-200), as
the backend answers it: still incomplete (`response` stays `None`), complete
with the created file object, or raising an exception. -/
inductive ChunkStep
  | incomplete
  | complete (fileId : String)
  | raised (e : String)
deriving DecidableEq, Repr

/-- The resumable-upload polling loop `while response is None: status,
response = request_drive.next_chunk()` (lines 109-111 and 198-200), run
against the backend reply stream `stream` starting at call index `i`, with
explicit fuel: `none` means the loop is still running after that many
iterations — the source loop has no iteration bound, no retry counter and no
failure declaration of its own (an exception propagates to the enclosing
try). -/
def next_chunk_loop (stream : Nat → ChunkStep) (i : Nat) :
    Nat → Option (Except String String)
  | 0 => none
  | fuel + 1 =>
    match stream i with
    | ChunkStep.complete fileId => some (Except.ok fileId)
    | ChunkStep.raised e => some (Except.error e)
    | ChunkStep.incomplete => next_chunk_loop stream (i + 1) fuel

/-- Program counter of one `POST /upload` handler thread, reduced to its two
accesses of the shared `upload_sessions` dict: `start` is before the
membership check of line 80, `working` is between that check and the pop of
line 152 (the file save, Drive upload and notification, which touch no
session state; both are taken to succeed), `done b` is the returned
response, `b = true` for the success response of line 154. -/
inductive HPhase
  | start
  | working
  | done (success : Bool)
deriving DecidableEq, Repr

/-- One scheduler-visible step of a `POST /upload` handler thread holding a
valid non-empty token: the membership check of line 80 (absent → the 400
rejection, present → proceed), then the pop of line 152 followed by the
success return — `dict.pop(token, None)` never fails, and nothing between
the check and the pop re-validates the token. -/
def postStep (token : String) (store : SessionStore) :
    HPhase → SessionStore × HPhase
  | HPhase.start =>
    match storeLookup store token with
    | none => (store, HPhase.done false)
    | some _ => (store, HPhase.working)
  | HPhase.working => (storePop store token, HPhase.done true)
  | HPhase.done b => (store, HPhase.done b)

/-- Thread identifier for two concurrent `POST /upload` handlers (Flask runs
`threaded=True`, line 242). -/
inductive Tid
  | a
  | b
deriving DecidableEq, Repr

/-- The shared state of two concurrent `POST /upload` handlers on the same
token: the unguarded `upload_sessions` dict and each thread's phase. -/
structure TwoPost where
  store : SessionStore
  pa : HPhase
  pb : HPhase
deriving DecidableEq, Repr

/-- The scheduler runs one step of the chosen thread against the shared
store. -/
def schedStep (token : String) (s : TwoPost) : Tid → TwoPost
  | Tid.a =>
    let r := postStep token s.store s.pa
    { store := r.1, pa := r.2, pb := s.pb }
  | Tid.b =>
    let r := postStep token s.store s.pb
    { store := r.1, pa := s.pa, pb := r.2 }

/-- Run a schedule (a list of thread choices) from a starting state. -/
def runSchedule (token : String) : TwoPost → List Tid → TwoPost
  | s, [] => s
  | s, t :: rest => runSchedule token (schedStep token s t) rest

theorem storeLookup_storePop (store : SessionStore) (t : String) :
    storeLookup (storePop store t) t = none := by
  induction store with
  | nil => rfl
  | cons kv rest ih =>
    obtain ⟨k, v⟩ := kv
    by_cases hk : k = t
    · simp [storePop, hk, ih]
    · simp [storePop, storeLookup, hk, ih]

theorem storeLookup_storePop_ne (store : SessionStore) (t k : String)
    (h : k ≠ t) : storeLookup (storePop store t) k = storeLookup store k := by
  induction store with
  | nil => rfl
  | cons kv rest ih =>
    obtain ⟨k', v⟩ := kv
    by_cases hk : k' = t
    · subst hk
      simp [storePop, storeLookup, ih, Ne.symm h]
    · simp [storePop, storeLookup, hk, ih]

/-- Claim C1: refuted on the code. The shared `upload_sessions` dict is
accessed without any lock; in the schedule where both `POST /upload`
handlers pass the membership check of line 80 before either reaches the pop
of line 152, both threads finish in the success state — the claim requires
that at most one succeeds and the other observes the invalid-or-expired
rejection. -/
theorem c1_two_concurrent_posts_both_succeed :
    runSchedule "tok" ⟨[("tok", ⟨42, none⟩)], HPhase.start, HPhase.start⟩
        [Tid.a, Tid.b, Tid.a, Tid.b]
      = ⟨[], HPhase.done true, HPhase.done true⟩ := by
  rfl

/-- Claim C2: for a recognised attachment, `get_file_link` enters the
automatic-relay branch exactly when the size is known and at most the
20 MiB threshold (and on a successful relay mints nothing); for an unknown
or over-threshold size it makes no automatic attempt, mints a token bound
to the sender, and its single reply carries the browser upload URL. -/
theorem c2_router_threshold (ann : Announcement) (store : SessionStore)
    (auto : AutoResult) (freshToken base : String)
    (hk : ann.kind ≠ FileKind.noFile) :
    ((∃ s, ann.fileSize = some s ∧ s ≤ THRESHOLD) →
      (get_file_link ann store auto freshToken base).autoAttempted = true ∧
      ∀ link, auto = AutoResult.success link →
        (get_file_link ann store auto freshToken base).minted = none) ∧
    ((ann.fileSize = none ∨ ∃ s, ann.fileSize = some s ∧ THRESHOLD < s) →
      (get_file_link ann store auto freshToken base).autoAttempted = false ∧
      (get_file_link ann store auto freshToken base).minted = some freshToken ∧
      (get_file_link ann store auto freshToken base).replies
        = [handoffReplyText (uploadUrl base freshToken)] ∧
      (get_file_link ann store auto freshToken base).storeAfter
        = mintSession store freshToken ann.userId ann.fileName) := by
  obtain ⟨kind, fileSize, fileName, userId⟩ := ann
  simp only [ne_eq] at hk
  constructor
  · rintro ⟨s, hs, hle⟩
    simp only at hs
    subst hs
    cases auto <;> simp [get_file_link, hk, hle]
  · rintro (hnone | ⟨s, hs, hlt⟩)
    · simp only at hnone
      subst hnone
      simp [get_file_link, hk]
    · simp only at hs
      subst hs
      have hnle : ¬ s ≤ THRESHOLD := Nat.not_le.mpr hlt
      simp [get_file_link, hk, hnle]

/-- Claim C2 witness: a known 1 KiB document triggers the automatic branch,
and an unknown-size document goes straight to handoff. -/
theorem c2_router_threshold_witness :
    ((⟨FileKind.document, some 1024, some "a.txt", 9⟩ : Announcement).kind
        ≠ FileKind.noFile) ∧
    ((∃ s, (⟨FileKind.document, some 1024, some "a.txt", 9⟩ : Announcement).fileSize
          = some s ∧ s ≤ THRESHOLD) →
      (get_file_link ⟨FileKind.document, some 1024, some "a.txt", 9⟩ []
          (AutoResult.success "L") "tok" "https://ex").autoAttempted = true ∧
      ∀ link, AutoResult.success "L" = AutoResult.success link →
        (get_file_link ⟨FileKind.document, some 1024, some "a.txt", 9⟩ []
            (AutoResult.success "L") "tok" "https://ex").minted = none) ∧
    (((⟨FileKind.document, some 1024, some "a.txt", 9⟩ : Announcement).fileSize = none ∨
        ∃ s, (⟨FileKind.document, some 1024, some "a.txt", 9⟩ : Announcement).fileSize
          = some s ∧ THRESHOLD < s) →
      (get_file_link ⟨FileKind.document, some 1024, some "a.txt", 9⟩ []
          (AutoResult.success "L") "tok" "https://ex").autoAttempted = false ∧
      (get_file_link ⟨FileKind.document, some 1024, some "a.txt", 9⟩ []
          (AutoResult.success "L") "tok" "https://ex").minted = some "tok" ∧
      (get_file_link ⟨FileKind.document, some 1024, some "a.txt", 9⟩ []
          (AutoResult.success "L") "tok" "https://ex").replies
        = [handoffReplyText (uploadUrl "https://ex" "tok")] ∧
      (get_file_link ⟨FileKind.document, some 1024, some "a.txt", 9⟩ []
          (AutoResult.success "L") "tok" "https://ex").storeAfter
        = mintSession [] "tok"
            (⟨FileKind.document, some 1024, some "a.txt", 9⟩ : Announcement).userId
            (⟨FileKind.document, some 1024, some "a.txt", 9⟩ : Announcement).fileName) :=
  ⟨by decide,
   c2_router_threshold ⟨FileKind.document, some 1024, some "a.txt", 9⟩ []
     (AutoResult.success "L") "tok" "https://ex" (by decide)⟩

/-- Claim C3: refuted on the code at the automatic chat-relay path — when
the Drive upload raises after `mkstemp` created the temp file, the `except`
branch of `get_file_link` (lines 213-215) contains no `os.remove`, so the
handler exits with the temp file still on disk. -/
theorem c3_auto_relay_failure_leaks_temp_file :
    (get_file_link ⟨FileKind.document, some 1024, some "notes.txt", 42⟩ []
        (AutoResult.transferFail "network error") "tok" "https://ex").tmpCreated
      = true ∧
    (get_file_link ⟨FileKind.document, some 1024, some "notes.txt", 42⟩ []
        (AutoResult.transferFail "network error") "tok" "https://ex").tmpRemoved
      = false := by
  exact ⟨rfl, rfl⟩

/-- Claim C4: refuted on the code — the polling loop of lines 110-111 and
199-200 has no retry bound at all: against a backend that answers "not yet
complete" on every call, the loop is still running after any number of
iterations, and no `Failed` outcome is ever declared. -/
theorem c4_chunk_loop_unbounded (i fuel : Nat) :
    next_chunk_loop (fun _ => ChunkStep.incomplete) i fuel = none := by
  induction fuel generalizing i with
  | zero => rfl
  | succ n ih => simpa [next_chunk_loop] using ih (i + 1)

/-- Claim C5 counterexample: a POST against the valid token `tok` whose
transfer attempt fails (the Drive try-block raises) returns the 500 failure
response with the store untouched — the token is not consumed and still
resolves, where the claim requires consumption after every completed
transfer attempt. -/
theorem c5_failed_transfer_leaves_token_live :
    (upload [("tok", ⟨7, none⟩)] ⟨Method.post, some "tok", true⟩
        (TransferResult.failure "boom") true).storeAfter = [("tok", ⟨7, none⟩)] ∧
    storeLookup (upload [("tok", ⟨7, none⟩)] ⟨Method.post, some "tok", true⟩
        (TransferResult.failure "boom") true).storeAfter "tok" = some ⟨7, none⟩ ∧
    (upload [("tok", ⟨7, none⟩)] ⟨Method.post, some "tok", true⟩
        (TransferResult.failure "boom") true).response.status = 500 := by
  exact ⟨rfl, rfl, rfl⟩

/-- Claim C5 as amended: the token is consumed only on the full-success
path (transfer succeeded and the Telegram notification succeeded); after a
failed transfer, and after a successful transfer whose notification failed,
the store is unchanged and the token still resolves; and before
consumption, resolving a minted token returns the session that was
minted. -/
theorem c5_token_consumed_only_on_full_success (store : SessionStore)
    (tok : String) (uid : Nat) (hint : Option String) (sess : UploadSession)
    (link err : String) (notifyOk : Bool)
    (hs : storeLookup store tok = some sess) (hne : tok ≠ "") :
    storeLookup (mintSession store tok uid hint) tok = some ⟨uid, hint⟩ ∧
    storeLookup (upload store ⟨Method.post, some tok, true⟩
        (TransferResult.success link) true).storeAfter tok = none ∧
    (upload store ⟨Method.post, some tok, true⟩
        (TransferResult.failure err) notifyOk).storeAfter = store ∧
    (upload store ⟨Method.post, some tok, true⟩
        (TransferResult.success link) false).storeAfter = store := by
  refine ⟨?_, ?_, ?_, ?_⟩
  · simp [mintSession, storeLookup]
  · simp [upload, hs, hne, storeLookup_storePop]
  · simp [upload, hs, hne]
  · simp [upload, hs, hne]

/-- Claim C5 witness: the amended statement at a concrete store and
token. -/
theorem c5_token_consumed_only_on_full_success_witness :
    storeLookup (mintSession [("t", ⟨1, none⟩)] "t" 5 none) "t" = some ⟨5, none⟩ ∧
    storeLookup (upload [("t", ⟨1, none⟩)] ⟨Method.post, some "t", true⟩
        (TransferResult.success "L") true).storeAfter "t" = none ∧
    (upload [("t", ⟨1, none⟩)] ⟨Method.post, some "t", true⟩
        (TransferResult.failure "E") false).storeAfter = [("t", ⟨1, none⟩)] ∧
    (upload [("t", ⟨1, none⟩)] ⟨Method.post, some "t", true⟩
        (TransferResult.success "L") false).storeAfter = [("t", ⟨1, none⟩)] :=
  c5_token_consumed_only_on_full_success [("t", ⟨1, none⟩)] "t" 5 none
    ⟨1, none⟩ "L" "E" false (by decide) (by decide)

/-- Claim C6 counterexample: the session record holds no mint timestamp and
no handler consults a clock, so a minted, never-consumed token is still
accepted no matter how much time has passed since the mint: GET renders the
upload form (200, not the invalid-or-expired rejection) and POST proceeds
past the token check to the file-part check. -/
theorem c6_stale_unconsumed_token_still_accepted :
    (upload (mintSession [] "tok" 42 none) ⟨Method.get, some "tok", false⟩
        (TransferResult.failure "x") true).response
      = ⟨renderUploadForm "tok" 42, 200⟩ ∧
    (upload (mintSession [] "tok" 42 none) ⟨Method.post, some "tok", false⟩
        (TransferResult.failure "x") true).response
      = ⟨"No file provided.", 400⟩ := by
  exact ⟨rfl, rfl⟩

/-- Claim C6 as amended: sessions never expire by elapsed time — the code
stores no mint time and checks none. A token present in the store keeps
resolving after any run of the handler that is not a full-success POST of
that very token (the only consuming step), and a GET against it always
renders the form rather than the invalid-or-expired rejection. -/
theorem c6_no_time_expiry (store : SessionStore) (tok : String)
    (sess : UploadSession) (req : UploadRequest) (transfer : TransferResult)
    (notifyOk : Bool) (hs : storeLookup store tok = some sess) (hne : tok ≠ "")
    (hnc : ¬ (req.method = Method.post ∧ req.token = some tok ∧
        req.hasFile = true ∧ (∃ link, transfer = TransferResult.success link) ∧
        notifyOk = true)) :
    storeLookup (upload store req transfer notifyOk).storeAfter tok = some sess ∧
    (upload store ⟨Method.get, some tok, false⟩ transfer notifyOk).response
      = ⟨renderUploadForm tok sess.user_id, 200⟩ := by
  constructor
  · obtain ⟨m, tk, hf⟩ := req
    simp only at hnc
    cases tk with
    | none => simp [upload, invalidOutcome, hs]
    | some t =>
      by_cases h0 : t = ""
      · simp [upload, invalidOutcome, h0, hs]
      · cases hlook : storeLookup store t with
        | none => simp [upload, invalidOutcome, h0, hlook, hs]
        | some s' =>
          cases m with
          | get => simp [upload, h0, hlook, hs]
          | post =>
            cases hf with
            | false => simp [upload, h0, hlook, hs]
            | true =>
              cases transfer with
              | failure e => simp [upload, h0, hlook, hs]
              | success link =>
                cases notifyOk with
                | false => simp [upload, h0, hlook, hs]
                | true =>
                  have ht : t ≠ tok := fun hteq =>
                    hnc ⟨rfl, by rw [hteq], rfl, ⟨link, rfl⟩, rfl⟩
                  have hpop := storeLookup_storePop_ne store t tok (Ne.symm ht)
                  simp [upload, h0, hlook, hpop, hs]
  · simp [upload, hs, hne]

/-- Claim C6 witness: the amended statement at a concrete store, for a run
(a POST whose transfer fails) that does not consume the token. -/
theorem c6_no_time_expiry_witness :
    storeLookup (upload [("tok", ⟨42, none⟩)] ⟨Method.post, some "tok", true⟩
        (TransferResult.failure "E") true).storeAfter "tok" = some ⟨42, none⟩ ∧
    (upload [("tok", ⟨42, none⟩)] ⟨Method.get, some "tok", false⟩
        (TransferResult.failure "E") true).response
      = ⟨renderUploadForm "tok" 42, 200⟩ :=
  c6_no_time_expiry [("tok", ⟨42, none⟩)] "tok" ⟨42, none⟩
    ⟨Method.post, some "tok", true⟩ (TransferResult.failure "E") true
    (by decide) (by decide) (by simp)

/-- Claim C7: when the automatic relay attempt fails — whether the fetch
raised before the temp file existed or the transfer raised after — the
handler falls back to handoff for the same announcement: it mints a session
bound to the originating user and replies with the upload URL formed as
`base ++ "/upload?token=" ++ token`. -/
theorem c7_auto_failure_falls_back_to_handoff (ann : Announcement)
    (store : SessionStore) (freshToken base : String) (s : Nat) (e : String)
    (auto : AutoResult) (hk : ann.kind ≠ FileKind.noFile)
    (hsz : ann.fileSize = some s) (hle : s ≤ THRESHOLD)
    (hfail : auto = AutoResult.fetchFail e ∨ auto = AutoResult.transferFail e) :
    (get_file_link ann store auto freshToken base).minted = some freshToken ∧
    (get_file_link ann store auto freshToken base).storeAfter
      = mintSession store freshToken ann.userId ann.fileName ∧
    storeLookup (get_file_link ann store auto freshToken base).storeAfter freshToken
      = some ⟨ann.userId, ann.fileName⟩ ∧
    (get_file_link ann store auto freshToken base).replies
      = [smallFileReply,
         "❌ Failed to upload automatically: " ++ e ++ "\nYou can use manual upload link instead.",
         handoffReplyText (base ++ "/upload?token=" ++ freshToken)] := by
  obtain ⟨kind, fileSize, fileName, userId⟩ := ann
  simp only [ne_eq] at hk
  simp only at hsz
  subst hsz
  rcases hfail with h | h <;> subst h <;>
    simp [get_file_link, hk, hle, mintSession, storeLookup, uploadUrl]

/-- Claim C7 witness: a 2 KiB video whose automatic fetch raises is handed
off with a minted session and the upload URL in the reply. -/
theorem c7_auto_failure_falls_back_to_handoff_witness :
    (get_file_link ⟨FileKind.video, some 2048, none, 8⟩ []
        (AutoResult.fetchFail "E") "tk7" "https://h").minted = some "tk7" ∧
    (get_file_link ⟨FileKind.video, some 2048, none, 8⟩ []
        (AutoResult.fetchFail "E") "tk7" "https://h").storeAfter
      = mintSession [] "tk7" 8 none ∧
    storeLookup (get_file_link ⟨FileKind.video, some 2048, none, 8⟩ []
        (AutoResult.fetchFail "E") "tk7" "https://h").storeAfter "tk7"
      = some ⟨8, none⟩ ∧
    (get_file_link ⟨FileKind.video, some 2048, none, 8⟩ []
        (AutoResult.fetchFail "E") "tk7" "https://h").replies
      = [smallFileReply,
         "❌ Failed to upload automatically: " ++ "E" ++ "\nYou can use manual upload link instead.",
         handoffReplyText ("https://h" ++ "/upload?token=" ++ "tk7")] :=
  c7_auto_failure_falls_back_to_handoff ⟨FileKind.video, some 2048, none, 8⟩
    [] "tk7" "https://h" 2048 "E" (AutoResult.fetchFail "E") (by decide) rfl
    (by decide) (Or.inl rfl)

/-- Claim C8: a notification failure never changes the transfer outcome —
after a successful transfer the browser response has status 200 whatever
the notification did, and when the notification fails the 200 body reports
it while still carrying the link. -/
theorem c8_notify_failure_preserves_success (store : SessionStore)
    (tok link : String) (sess : UploadSession) (notifyOk : Bool)
    (hs : storeLookup store tok = some sess) (hne : tok ≠ "") :
    (upload store ⟨Method.post, some tok, true⟩
        (TransferResult.success link) notifyOk).response.status = 200 ∧
    (upload store ⟨Method.post, some tok, true⟩
        (TransferResult.success link) false).response.body
      = "Upload OK but couldn't notify via Telegram. Link: " ++ link := by
  constructor
  · cases notifyOk <;> simp [upload, hs, hne]
  · simp [upload, hs, hne]

/-- Claim C8 witness: concrete store and link, notification failing. -/
theorem c8_notify_failure_preserves_success_witness :
    (upload [("t", ⟨3, none⟩)] ⟨Method.post, some "t", true⟩
        (TransferResult.success "https://drive/L") false).response.status = 200 ∧
    (upload [("t", ⟨3, none⟩)] ⟨Method.post, some "t", true⟩
        (TransferResult.success "https://drive/L") false).response.body
      = "Upload OK but couldn't notify via Telegram. Link: " ++ "https://drive/L" :=
  c8_notify_failure_preserves_success [("t", ⟨3, none⟩)] "t" "https://drive/L"
    ⟨3, none⟩ false (by decide) (by decide)

/-- Claim C9: a request whose token is missing, empty or absent from the
session store gets the invalid-link rejection immediately — the whole
outcome equals `invalidOutcome`: the 400 response, the store unchanged, no
temp file written and no storage-backend call made. -/
theorem c9_unknown_token_rejected_without_effects (store : SessionStore)
    (req : UploadRequest) (transfer : TransferResult) (notifyOk : Bool)
    (h : req.token = none ∨
        ∃ t, req.token = some t ∧ (t = "" ∨ storeLookup store t = none)) :
    upload store req transfer notifyOk = invalidOutcome store ∧
    (upload store req transfer notifyOk).response
      = ⟨"Invalid or expired token. Start from the Telegram bot.", 400⟩ ∧
    (upload store req transfer notifyOk).storeAfter = store ∧
    (upload store req transfer notifyOk).tmpSaved = false ∧
    (upload store req transfer notifyOk).driveCalled = false := by
  have hmain : upload store req transfer notifyOk = invalidOutcome store := by
    obtain ⟨m, tk, hf⟩ := req
    rcases h with h | ⟨t, ht, h2⟩
    · simp only at h
      subst h
      rfl
    · simp only at ht
      subst ht
      rcases h2 with h2 | h2
      · simp [upload, h2]
      · by_cases h0 : t = ""
        · simp [upload, h0]
        · simp [upload, h0, h2]
  refine ⟨hmain, ?_, ?_, ?_, ?_⟩ <;> rw [hmain] <;> rfl

/-- Claim C9 witness: a POST carrying a token the store does not know. -/
theorem c9_unknown_token_rejected_without_effects_witness :
    upload [("tok", ⟨1, none⟩)] ⟨Method.post, some "ghost", true⟩
        (TransferResult.failure "x") true = invalidOutcome [("tok", ⟨1, none⟩)] ∧
    (upload [("tok", ⟨1, none⟩)] ⟨Method.post, some "ghost", true⟩
        (TransferResult.failure "x") true).response
      = ⟨"Invalid or expired token. Start from the Telegram bot.", 400⟩ ∧
    (upload [("tok", ⟨1, none⟩)] ⟨Method.post, some "ghost", true⟩
        (TransferResult.failure "x") true).storeAfter = [("tok", ⟨1, none⟩)] ∧
    (upload [("tok", ⟨1, none⟩)] ⟨Method.post, some "ghost", true⟩
        (TransferResult.failure "x") true).tmpSaved = false ∧
    (upload [("tok", ⟨1, none⟩)] ⟨Method.post, some "ghost", true⟩
        (TransferResult.failure "x") true).driveCalled = false :=
  c9_unknown_token_rejected_without_effects [("tok", ⟨1, none⟩)]
    ⟨Method.post, some "ghost", true⟩ (TransferResult.failure "x") true
    (Or.inr ⟨"ghost", rfl, Or.inr (by decide)⟩)

/-- Claim C10: a POST with a valid token but no file part returns the
400 "No file provided." response and leaves everything unchanged — the
token is not consumed and still resolves to the minted session, no temp
file is written and no storage-backend call is made. -/
theorem c10_post_without_file_leaves_store (store : SessionStore)
    (tok : String) (sess : UploadSession) (transfer : TransferResult)
    (notifyOk : Bool) (hs : storeLookup store tok = some sess)
    (hne : tok ≠ "") :
    (upload store ⟨Method.post, some tok, false⟩ transfer notifyOk).response
      = ⟨"No file provided.", 400⟩ ∧
    (upload store ⟨Method.post, some tok, false⟩ transfer notifyOk).storeAfter
      = store ∧
    storeLookup (upload store ⟨Method.post, some tok, false⟩
        transfer notifyOk).storeAfter tok = some sess ∧
    (upload store ⟨Method.post, some tok, false⟩ transfer notifyOk).tmpSaved
      = false ∧
    (upload store ⟨Method.post, some tok, false⟩ transfer notifyOk).driveCalled
      = false := by
  refine ⟨?_, ?_, ?_, ?_, ?_⟩ <;> simp [upload, hs, hne]

/-- Claim C10 witness: concrete store, fileless POST against the valid
token. -/
theorem c10_post_without_file_leaves_store_witness :
    (upload [("t", ⟨4, some "n.txt"⟩)] ⟨Method.post, some "t", false⟩
        (TransferResult.failure "x") true).response
      = ⟨"No file provided.", 400⟩ ∧
    (upload [("t", ⟨4, some "n.txt"⟩)] ⟨Method.post, some "t", false⟩
        (TransferResult.failure "x") true).storeAfter = [("t", ⟨4, some "n.txt"⟩)] ∧
    storeLookup (upload [("t", ⟨4, some "n.txt"⟩)] ⟨Method.post, some "t", false⟩
        (TransferResult.failure "x") true).storeAfter "t" = some ⟨4, some "n.txt"⟩ ∧
    (upload [("t", ⟨4, some "n.txt"⟩)] ⟨Method.post, some "t", false⟩
        (TransferResult.failure "x") true).tmpSaved = false ∧
    (upload [("t", ⟨4, some "n.txt"⟩)] ⟨Method.post, some "t", false⟩
        (TransferResult.failure "x") true).driveCalled = false :=
  c10_post_without_file_leaves_store [("t", ⟨4, some "n.txt"⟩)] "t"
    ⟨4, some "n.txt"⟩ (TransferResult.failure "x") true (by decide) (by decide)

end DriveFileBot
